import Mathlib

/-!
Shallow embedding of the NotificationService repository core
(Suoslex/NotificationService): the domain model, the Django repository
operations, the submission use case and the Celery dispatch loop,
together with theorems settling the specification claims.

Source files embedded:
  - notification_service/domain/enums.py, entities.py
  - notification_service/application/dtos/*.py
  - notification_service/adapters/db/models.py, repositories.py
  - notification_service/application/use_cases/send_notification.py
  - notification_service/adapters/workers/celery.py (send_notifications)
  - notification_service/adapters/workers/notification_channels.py
-/

namespace NotificationService

/-- domain/enums.py `NotificationType`: the four channel variants. -/
inductive NotificationType where
  | email
  | sms
  | push
  | telegram
deriving DecidableEq, Repr

/-- domain/enums.py `NotificationStatus`. -/
inductive NotificationStatus where
  | pending
  | sent
  | failed
deriving DecidableEq, Repr

/-- domain/entities.py `Notification` dataclass.  UUIDs are modelled as
naturals (opaque identifiers). -/
structure Notification where
  uuid : Nat
  user_uuid : Nat
  title : String
  text : String
  type : Option NotificationType
  status : NotificationStatus
deriving DecidableEq, Repr

/-- application/dtos/user_notification_settings.py `UserNotificationsSettings`.
The Python `dict[NotificationType, str]` is modelled as an association list;
`preferred_notification_channel` can be absent (the Keycloak provider passes
`attributes.get(...)`, which may be `None`), so it is an `Option`. -/
structure UserNotificationsSettings where
  user_uuid : Nat
  notification_channels : List (NotificationType × String)
  preferred_notification_channel : Option NotificationType
deriving DecidableEq, Repr

/-- application/dtos/notification_status.py `NotificationStatusDTO`. -/
structure NotificationStatusDTO where
  uuid : Nat
  status : NotificationStatus
  was_created : Bool
deriving DecidableEq, Repr

/-- `dict.get(key)`: first binding for the key in the association list. -/
def lookupChannel (chs : List (NotificationType × String))
    (t : NotificationType) : Option String :=
  (chs.find? (fun p => decide (p.1 = t))).map Prod.snd

/-- `key in dict`: key membership, as used by the dispatch loop's pinned-type
check `notification.type not in user_settings.notification_channels`. -/
def hasChannel (chs : List (NotificationType × String))
    (t : NotificationType) : Bool :=
  decide (t ∈ chs.map Prod.fst)

/-- `set(dict)`: the distinct keys.  Python set iteration order is
unspecified; this model fixes first-occurrence order. -/
def channelKeys (chs : List (NotificationType × String)) :
    List NotificationType :=
  (chs.map Prod.fst).eraseDups

/-- celery.py lines 85-100: candidate channel list used when the notification
carries no explicit type.  The remainder is `set(notification_channels) -
{preferred_notification_channel}`; the preferred channel is inserted at the
front whenever it is set (truthy) — the code does not check that it is among
the configured channels. -/
def candidateChannels (s : UserNotificationsSettings) : List NotificationType :=
  let remainder := (channelKeys s.notification_channels).filter
    (fun t => decide (some t ≠ s.preferred_notification_channel))
  match s.preferred_notification_channel with
  | some p => p :: remainder
  | none => remainder

/-- Outcome of one `channel.send(notification)` call, as observed by the
dispatch loop's `try`/`except` clauses: a normal return, one of the two
`NotificationChannelError` subclasses (exceptions/workers.py), or any other
exception (caught by the loop's bare `except Exception`). -/
inductive SendOutcome where
  | success
  | userDoesntHaveTheChannel
  | couldntSendNotification
  | unexpectedError
deriving DecidableEq, Repr

/-- celery.py lines 112-143, the `for attempt in range(3): ... else:` inner
loop over one channel, run on a list of attempt indices: a `success` outcome
is the `break`; every exception outcome is caught (`except
NotificationChannelError` and `except Exception`) and the loop `continue`s.
Returns the attempt indices actually executed and whether the loop broke out
with a success. -/
def attemptLoop (outcome : Nat → SendOutcome) : List Nat → List Nat × Bool
  | [] => ([], false)
  | a :: rest =>
    match outcome a with
    | .success => ([a], true)
    | _ =>
      let r := attemptLoop outcome rest
      (a :: r.1, r.2)

/-- `range(3)` of the inner attempt loop. -/
def range3 : List Nat := [0, 1, 2]

/-- celery.py lines 107-151, the outer `for channel_type in
notification_channel_types` loop: each candidate gets the 3-attempt inner
loop; on success the outer loop stops, otherwise it continues with the next
candidate.  Returns the full trace of send calls (channel, attempt index)
and whether any send succeeded. -/
def channelLoop (send : NotificationType → Nat → SendOutcome) :
    List NotificationType → List (NotificationType × Nat) × Bool
  | [] => ([], false)
  | ct :: rest =>
    let r := attemptLoop (send ct) range3
    let attempts := r.1.map (fun a => (ct, a))
    if r.2 then (attempts, true)
    else
      let r2 := channelLoop send rest
      (attempts ++ r2.1, r2.2)

/-- Infrastructure-level failures: exceptions raised by the store or the
user directory (exceptions/base.py `TemporaryFailure`,
exceptions/repository.py `ObjectNotFoundInRepository`), which the dispatch
loop does not catch. -/
inductive InfraError where
  | storeUnavailable
  | directoryUnavailable
  | objectNotFound
deriving DecidableEq, Repr

/-- Result of `user_provider.get_notification_settings`: either the settings
or the `UserNotFound` exception (which celery.py catches explicitly). -/
inductive SettingsOutcome where
  | found (s : UserNotificationsSettings)
  | userNotFound
deriving DecidableEq, Repr

/-- The collaborators of one `send_notifications` invocation:
the claimed row (`get_pending_for_update`), the directory lookup, the
per-channel-per-attempt send outcomes, and the result of the single
`notification_repo.update` call the invocation makes (if it makes one). -/
structure DispatchDeps where
  claimed : Except InfraError (Option Notification)
  settings : Except InfraError SettingsOutcome
  send : NotificationType → Nat → SendOutcome
  updateResult : Except InfraError Unit

/-- Observable result of one `send_notifications` invocation: the trace of
channel send calls made, and the status passed to
`notification_repo.update` (`none` when no update was issued, i.e. the
no-pending no-op path). -/
structure DispatchOutput where
  trace : List (NotificationType × Nat)
  written : Option NotificationStatus
deriving DecidableEq, Repr

/-- `notification.status = st; uow.notification_repo.update(notification);
return` — the update call may itself raise (it is not inside any `try`). -/
def finishWith (upd : Except InfraError Unit)
    (tr : List (NotificationType × Nat)) (st : NotificationStatus) :
    Except InfraError DispatchOutput :=
  match upd with
  | .error e => .error e
  | .ok _ => .ok ⟨tr, some st⟩

/-- celery.py lines 107-158: run the candidate list through the channel
loop, then persist `SENT` on success and `FAILED` on exhaustion. -/
def runCandidates (d : DispatchDeps) (cs : List NotificationType) :
    Except InfraError DispatchOutput :=
  let r := channelLoop d.send cs
  if r.2 then finishWith d.updateResult r.1 .sent
  else finishWith d.updateResult r.1 .failed

/-- celery.py lines 29-158, `send_notifications`: claim one pending
notification (no-op if none), resolve the user's settings (`UserNotFound`
marks the notification failed), build the candidate channel list (pinned
type must be among the configured channel keys, otherwise failed with no
send call), and attempt delivery.  Store/directory errors propagate. -/
def send_notifications (d : DispatchDeps) : Except InfraError DispatchOutput :=
  match d.claimed with
  | .error e => .error e
  | .ok none => .ok ⟨[], none⟩
  | .ok (some n) =>
    match d.settings with
    | .error e => .error e
    | .ok .userNotFound => finishWith d.updateResult [] .failed
    | .ok (.found s) =>
      match n.type with
      | some t =>
        if hasChannel s.notification_channels t then
          runCandidates d [t]
        else
          finishWith d.updateResult [] .failed
      | none => runCandidates d (candidateChannels s)

/-- The trace of send calls of an invocation (empty when the invocation
fails with an infra error). -/
def dispatchTrace (d : DispatchDeps) : List (NotificationType × Nat) :=
  match send_notifications d with
  | .ok o => o.trace
  | .error _ => []

/-- Whether the per-channel administrative flag
(`<CHANNEL>_NOTIFICATIONS_ENABLED` in the Django settings) and the
transport call succeed; one transport oracle value per attempt. -/
inductive TransportResult where
  | delivered
  | transportError
deriving DecidableEq, Repr

/-- notification_channels.py, the shared shape of the four
`NotificationChannel.send` variants (EmailNotificationChannel.send lines
89-150 and the structurally identical SMS/push/Telegram variants, which
differ only in which settings key and which enabled flag they consult):
look up this channel's address in the user's `notification_channels`; a
missing or falsy (empty) address raises `UserDoesntHaveTheChannel`; an
administratively disabled channel returns without calling the transport
(success-as-no-op); otherwise the transport is called and a transport
exception is normalized to `CouldntSendNotification`. -/
def channelSend (s : UserNotificationsSettings) (enabled : Bool)
    (transport : TransportResult) (ct : NotificationType) : SendOutcome :=
  match lookupChannel s.notification_channels ct with
  | none => .userDoesntHaveTheChannel
  | some addr =>
    if addr = "" then .userDoesntHaveTheChannel
    else if enabled then
      match transport with
      | .delivered => .success
      | .transportError => .couldntSendNotification
    else .success

/-- Whether a `channelSend` call reaches the underlying transport
(`_send_email` / `_send_sms` / `_send_push` /
`_send_message_in_telegram`): only when the address is configured,
non-empty, and the channel is enabled. -/
def channelTransportCalled (s : UserNotificationsSettings) (enabled : Bool)
    (ct : NotificationType) : Bool :=
  match lookupChannel s.notification_channels ct with
  | none => false
  | some addr => if addr = "" then false else enabled

/-- adapters/db: one stored row of `NotificationModel` (models.py lines
22-38).  `status` defaults to pending at creation; `created_at` is the
creation timestamp used as the claim ordering key by
`get_pending_for_update` (repositories.py line 149); the `uuid` column
carries no uniqueness constraint (`models.UUIDField()` with no
`unique=True` and no Meta constraints). -/
structure NotificationRow where
  uuid : Nat
  user_uuid : Nat
  title : String
  text : String
  type : Option NotificationType
  status : NotificationStatus
  created_at : Nat
deriving DecidableEq, Repr

/-- repositories.py `_model_to_entity`. -/
def model_to_entity (r : NotificationRow) : Notification :=
  ⟨r.uuid, r.user_uuid, r.title, r.text, r.type, r.status⟩

/-- Row predicate for `filter(uuid=...)`. -/
def uuidMatch (u : Nat) : NotificationRow → Bool :=
  fun r => decide (r.uuid = u)

/-- repositories.py lines 21-38, `DjangoNotificationRepository.exists`:
`NotificationModel.objects.filter(uuid=uuid).exists()`. -/
def existsByUuid (rows : List NotificationRow) (u : Nat) : Bool :=
  rows.any (uuidMatch u)

/-- repositories.py lines 40-66, `DjangoNotificationRepository.get_by_uuid`:
`filter(uuid=uuid).first()`, raising `ObjectNotFoundInRepository` when
absent (modelled by the caller via the `none` case). -/
def get_by_uuid (rows : List NotificationRow) (u : Nat) : Option Notification :=
  (rows.find? (uuidMatch u)).map model_to_entity

/-- repositories.py lines 68-92, `DjangoNotificationRepository.create`:
an unconditional `NotificationModel.objects.create(uuid=..., user_uuid=...,
title=..., text=..., type=...)`.  The entity's `status` is NOT passed, so
the new row takes the model default `PENDING`; there is no duplicate check
and no uniqueness constraint, so the row is always appended.  Returns the
entity read back from the created model and the new table contents.
`createdRow` is the row that `objects.create` inserts. -/
def createdRow (n : Notification) (now : Nat) : NotificationRow :=
  ⟨n.uuid, n.user_uuid, n.title, n.text, n.type, .pending, now⟩

def create (rows : List NotificationRow) (n : Notification) (now : Nat) :
    Notification × List NotificationRow :=
  (model_to_entity (createdRow n now), rows ++ [createdRow n now])

/-- Insert a row into a list sorted by ascending `created_at`. -/
def insertByCreated (r : NotificationRow) :
    List NotificationRow → List NotificationRow
  | [] => [r]
  | x :: xs =>
    if r.created_at ≤ x.created_at then r :: x :: xs
    else x :: insertByCreated r xs

/-- `order_by("created_at")`: sort the rows by ascending `created_at`
(insertion sort; ties are broken in an unspecified way, as in SQL). -/
def sortByCreated : List NotificationRow → List NotificationRow
  | [] => []
  | x :: xs => insertByCreated x (sortByCreated xs)

/-- repositories.py lines 134-157, `get_pending_for_update`:
`select_for_update(skip_locked=True).filter(status=PENDING)
.order_by("created_at").first()` — among the pending rows in ascending
`created_at` order, take the first one not currently locked by another
in-flight transaction (`lockedUuids` is the set of rows whose locks are
held elsewhere; SKIP LOCKED passes over them without blocking). -/
def get_pending_for_update (rows : List NotificationRow)
    (lockedUuids : List Nat) : Option NotificationRow :=
  (sortByCreated (rows.filter (fun r => decide (r.status = .pending)))).find?
    (fun r => !(decide (r.uuid ∈ lockedUuids)))

/-- use_cases/send_notification.py lines 27-79,
`SendNotificationUseCase.execute`: if a notification with the same uuid
exists, fetch it and return its stored fields with `was_created=False`
(the incoming payload is discarded, nothing is written); otherwise create
it (status defaults to pending) and return the created record with
`was_created=True`. -/
def execute (rows : List NotificationRow) (n : Notification) (now : Nat) :
    Except InfraError (NotificationStatusDTO × List NotificationRow) :=
  if existsByUuid rows n.uuid then
    match get_by_uuid rows n.uuid with
    | some stored => .ok (⟨stored.uuid, stored.status, false⟩, rows)
    | none => .error .objectNotFound
  else
    let res := create rows n now
    .ok (⟨res.1.uuid, res.1.status, true⟩, res.2)

/-!  Helper lemmas shared by the claim theorems.  -/

/-- A key that `lookupChannel` resolves is a member of the dict. -/
theorem hasChannel_of_lookupChannel {chs : List (NotificationType × String)}
    {t : NotificationType} {addr : String}
    (h : lookupChannel chs t = some addr) : hasChannel chs t = true := by
  unfold lookupChannel at h
  cases hf : chs.find? (fun p => decide (p.1 = t)) with
  | none => rw [hf] at h; simp at h
  | some pr =>
    have hmem := List.mem_of_find?_eq_some hf
    have hp := List.find?_some hf
    have ht : pr.1 = t := by simpa using hp
    unfold hasChannel
    simp only [decide_eq_true_eq]
    exact ht ▸ List.mem_map_of_mem Prod.fst hmem

/-- If no attempt in the list returns success, the inner attempt loop runs
every attempt and reports failure (the Python `for`/`else` falls through to
the `else`). -/
theorem attemptLoop_all_fail (outcome : Nat → SendOutcome) (l : List Nat)
    (h : ∀ a ∈ l, outcome a ≠ .success) : attemptLoop outcome l = (l, false) := by
  induction l with
  | nil => rfl
  | cons a rest ih =>
    have ha := h a (by simp)
    have hrest : ∀ b ∈ rest, outcome b ≠ .success := fun b hb => h b (by simp [hb])
    unfold attemptLoop
    cases hout : outcome a with
    | success => exact absurd hout ha
    | userDoesntHaveTheChannel => simp [ih hrest]
    | couldntSendNotification => simp [ih hrest]
    | unexpectedError => simp [ih hrest]

/-- The full trace produced when every candidate channel exhausts its three
attempts: three sends per channel, in candidate order. -/
def exhaustTrace : List NotificationType → List (NotificationType × Nat)
  | [] => []
  | c :: rest => (c, 0) :: (c, 1) :: (c, 2) :: exhaustTrace rest

theorem exhaustTrace_length (cs : List NotificationType) :
    (exhaustTrace cs).length = 3 * cs.length := by
  induction cs with
  | nil => rfl
  | cons c rest ih => simp [exhaustTrace, ih]; omega

/-- If every send on every candidate fails, the outer loop performs exactly
three attempts per candidate and reports no success. -/
theorem channelLoop_all_fail (send : NotificationType → Nat → SendOutcome)
    (cs : List NotificationType)
    (h : ∀ ct ∈ cs, ∀ k, k < 3 → send ct k ≠ .success) :
    channelLoop send cs = (exhaustTrace cs, false) := by
  induction cs with
  | nil => rfl
  | cons ct rest ih =>
    have hct : ∀ a ∈ range3, send ct a ≠ .success := by
      intro a ha
      apply h ct (by simp) a
      simp [range3] at ha
      omega
    have hrest : ∀ c ∈ rest, ∀ k, k < 3 → send c k ≠ .success :=
      fun c hc => h c (by simp [hc])
    unfold channelLoop
    rw [attemptLoop_all_fail (send ct) range3 hct]
    simp [range3, ih hrest, exhaustTrace]

/-- Claim C6 (confirmed): a claimed notification whose explicit
`channel_type` is not among the user's configured notification channels is
marked failed with an empty send trace — no channel send is invoked. -/
theorem C6_channel_pinning (d : DispatchDeps) (n : Notification)
    (s : UserNotificationsSettings) (t : NotificationType)
    (h1 : d.claimed = .ok (some n)) (h2 : d.settings = .ok (.found s))
    (h3 : n.type = some t) (h4 : hasChannel s.notification_channels t = false)
    (h5 : d.updateResult = .ok ()) :
    send_notifications d = .ok ⟨[], some .failed⟩ := by
  unfold send_notifications
  simp only [h1, h2, h3, h4]
  simp [finishWith, h5]

/-- Witness for C6 at a concrete input: notification pinned to SMS, user
configured only with email. -/
theorem C6_channel_pinning_witness :
    send_notifications
      ⟨.ok (some ⟨6, 60, "t", "b", some .sms, .pending⟩),
       .ok (.found ⟨60, [(.email, "a@b")], none⟩),
       fun _ _ => .success, .ok ()⟩ = .ok ⟨[], some .failed⟩ :=
  C6_channel_pinning _ ⟨6, 60, "t", "b", some .sms, .pending⟩
    ⟨60, [(.email, "a@b")], none⟩ .sms rfl rfl rfl (by decide) rfl

/-- C1 concrete input: a notification pinned to email for a user whose
email address is present as a dict key but empty, so every
`EmailNotificationChannel.send` raises `UserDoesntHaveTheChannel`. -/
def c1Notification : Notification := ⟨1, 10, "t", "b", some .email, .pending⟩

def c1Settings : UserNotificationsSettings := ⟨10, [(.email, "")], none⟩

def c1Deps : DispatchDeps :=
  ⟨.ok (some c1Notification), .ok (.found c1Settings),
   fun ct _ => channelSend c1Settings true .delivered ct, .ok ()⟩

/-- Claim C1 counterexample: the claim says a send raising
`UserDoesntHaveTheChannel` is non-retryable (zero further attempts on that
channel; with it as the only candidate, failed with no retries).  On the
code, `UserDoesntHaveTheChannel` is a `NotificationChannelError`, the
loop's `except NotificationChannelError: continue` retries it, and the only
candidate channel receives all three attempts before the notification is
failed: the trace has length 3, not 1. -/
theorem C1_counterexample :
    send_notifications c1Deps =
      .ok ⟨[(.email, 0), (.email, 1), (.email, 2)], some .failed⟩ ∧
    ¬ (dispatchTrace c1Deps).length = 1 :=
  ⟨rfl, by decide⟩

/-- Claim C1 amended (proved): a send raising `UserDoesntHaveTheChannel` is
retried exactly like `CouldntSendNotification`: the loop performs the full
3 attempts on that channel before moving on, and when it is the only
candidate the notification is marked failed after those 3 attempts. -/
theorem C1_amended (d : DispatchDeps) (n : Notification)
    (s : UserNotificationsSettings) (t : NotificationType)
    (h1 : d.claimed = .ok (some n)) (h2 : d.settings = .ok (.found s))
    (h3 : n.type = some t) (h4 : hasChannel s.notification_channels t = true)
    (h5 : ∀ k, k < 3 → d.send t k = .userDoesntHaveTheChannel)
    (h6 : d.updateResult = .ok ()) :
    send_notifications d = .ok ⟨[(t, 0), (t, 1), (t, 2)], some .failed⟩ := by
  unfold send_notifications
  simp only [h1, h2, h3, h4, if_true]
  have hloop := channelLoop_all_fail d.send [t]
    (by intro ct hct k hk
        simp at hct
        rw [hct, h5 k hk]
        simp)
  unfold runCandidates
  rw [hloop]
  simp [exhaustTrace, finishWith, h6]

/-- Witness for C1's amended theorem at the concrete input `c1Deps`. -/
theorem C1_amended_witness :
    send_notifications c1Deps =
      .ok ⟨[(.email, 0), (.email, 1), (.email, 2)], some .failed⟩ :=
  C1_amended c1Deps c1Notification c1Settings .email rfl rfl rfl (by decide)
    (fun k _ => by cases k <;> rfl) rfl

/-- Claim C10 (confirmed): submitting a fresh id persists and reports
status pending regardless of the status carried by the submitted entity:
`create` never writes the incoming status, the stored row takes the model
default pending, and the returned DTO carries the status read back from
the stored row with `was_created = true`. -/
theorem C10_create_defaults_pending (rows : List NotificationRow)
    (n : Notification) (now : Nat)
    (h : existsByUuid rows n.uuid = false) :
    ∀ st : NotificationStatus,
      execute rows { n with status := st } now =
        .ok (⟨n.uuid, .pending, true⟩,
          rows ++ [⟨n.uuid, n.user_uuid, n.title, n.text, n.type, .pending, now⟩]) := by
  intro st
  unfold execute
  simp only [show ({ n with status := st } : Notification).uuid = n.uuid from rfl, h]
  simp [create, createdRow, model_to_entity]

/-- Witness for C10: a fresh submission whose payload carries status
`sent` is still stored and reported as pending. -/
theorem C10_create_defaults_pending_witness :
    execute [] ⟨8, 80, "T", "B", none, .sent⟩ 4 =
      .ok (⟨8, .pending, true⟩, [⟨8, 80, "T", "B", none, .pending, 4⟩]) := by
  have h := C10_create_defaults_pending []
    ⟨8, 80, "T", "B", none, .pending⟩ 4 (by decide) .sent
  simpa using h

/-- Whatever the channel send outcomes, the channel loop phase always
terminates in a persisted terminal status (sent or failed). -/
theorem runCandidates_terminal (d : DispatchDeps)
    (hupd : d.updateResult = .ok ()) (cs : List NotificationType) :
    ∃ out : DispatchOutput, runCandidates d cs = .ok out ∧
      (out.written = some .sent ∨ out.written = some .failed) := by
  refine ⟨⟨(channelLoop d.send cs).1,
    if (channelLoop d.send cs).2 then some .sent else some .failed⟩, ?_, ?_⟩
  · simp only [runCandidates]
    cases (channelLoop d.send cs).2 <;> simp [finishWith, hupd]
  · cases (channelLoop d.send cs).2 <;> simp

/-- Claim C9 (confirmed): channel-attempt errors never raise past the
invocation boundary — for arbitrary send outcomes (including unexpected
exceptions on every attempt), an invocation whose claim and directory
lookup succeed always returns normally; a claimed notification always ends
with a terminal status (sent or failed) handed to `update`; no claimable
row is a clean no-op with no update; and store or directory infrastructure
errors propagate out of the invocation. -/
theorem C9_propagation (d : DispatchDeps) (hupd : d.updateResult = .ok ()) :
    (∀ e, d.claimed = .error e → send_notifications d = .error e) ∧
    (d.claimed = .ok none → send_notifications d = .ok ⟨[], none⟩) ∧
    (∀ n so, d.claimed = .ok (some n) → d.settings = .ok so →
      ∃ out, send_notifications d = .ok out ∧
        (out.written = some .sent ∨ out.written = some .failed)) ∧
    (∀ n e, d.claimed = .ok (some n) → d.settings = .error e →
      send_notifications d = .error e) := by
  refine ⟨?_, ?_, ?_, ?_⟩
  · intro e h
    unfold send_notifications
    simp [h]
  · intro h
    unfold send_notifications
    simp [h]
  · intro n so h1 h2
    unfold send_notifications
    simp only [h1, h2]
    cases so with
    | userNotFound =>
      exact ⟨⟨[], some .failed⟩, by simp [finishWith, hupd], Or.inr rfl⟩
    | found s =>
      cases ht : n.type with
      | some t =>
        by_cases hc : hasChannel s.notification_channels t = true
        · simp only [hc, if_true]
          exact runCandidates_terminal d hupd [t]
        · simp only [Bool.not_eq_true] at hc
          simp only [hc]
          exact ⟨⟨[], some .failed⟩, by simp [finishWith, hupd], Or.inr rfl⟩
      | none => exact runCandidates_terminal d hupd (candidateChannels s)
  · intro n e h1 h2
    unfold send_notifications
    simp [h1, h2]

/-- C9 witness input: a claimed notification whose every send attempt
raises an unexpected exception. -/
def c9Deps : DispatchDeps :=
  ⟨.ok (some ⟨9, 90, "t", "b", none, .pending⟩),
   .ok (.found ⟨90, [(.email, "a@b")], none⟩),
   fun _ _ => .unexpectedError, .ok ()⟩

/-- Witness for C9 at `c9Deps`. -/
theorem C9_propagation_witness :
    ∃ out, send_notifications c9Deps = .ok out ∧
      (out.written = some .sent ∨ out.written = some .failed) :=
  (C9_propagation c9Deps rfl).2.2.1 ⟨9, 90, "t", "b", none, .pending⟩
    (.found ⟨90, [(.email, "a@b")], none⟩) rfl rfl

/-- C2 counterexample input: the user's preferred channel (push) is NOT
among the configured notification channels; the notification carries no
explicit type, and sends behave as the real channel code would (push has
no address, email delivers). -/
def c2MissingPreferredSettings : UserNotificationsSettings :=
  ⟨11, [(.email, "a@b")], some .push⟩

def c2MissingPreferredDeps : DispatchDeps :=
  ⟨.ok (some ⟨2, 11, "t", "b", none, .pending⟩),
   .ok (.found c2MissingPreferredSettings),
   fun ct _ => channelSend c2MissingPreferredSettings true .delivered ct,
   .ok ()⟩

/-- Claim C2 counterexample: the claim says the preferred channel comes
first only if it is set AND present in the configured channels, and that a
channel with no configured address is never attempted.  On the code the
preferred channel is inserted at the front whenever it is set, even when it
is not configured: with preferred=push and channels={email}, the candidate
list is [push, email] (not [email]) and push is attempted (three times,
each raising `UserDoesntHaveTheChannel`), consuming a full retry budget
before email is tried. -/
theorem C2_counterexample :
    candidateChannels c2MissingPreferredSettings = [.push, .email] ∧
    send_notifications c2MissingPreferredDeps =
      .ok ⟨[(.push, 0), (.push, 1), (.push, 2), (.email, 0)], some .sent⟩ ∧
    (.push, 0) ∈ dispatchTrace c2MissingPreferredDeps :=
  ⟨rfl, rfl, by decide⟩

/-- C2 concrete scenario of the spec: settings {preferred=PUSH,
channels={PUSH, EMAIL}}; push always raises `CouldntSendNotification`;
email succeeds exactly on attempt `j`. -/
def c2Settings : UserNotificationsSettings :=
  ⟨12, [(.push, "392301"), (.email, "a@b")], some .push⟩

def c2Notification : Notification := ⟨2, 12, "t", "b", none, .pending⟩

def c2Send (j : Nat) : NotificationType → Nat → SendOutcome := fun ct k =>
  match ct with
  | .push => .couldntSendNotification
  | .email => if k = j then .success else .couldntSendNotification
  | _ => .unexpectedError

def c2Deps (j : Nat) : DispatchDeps :=
  ⟨.ok (some c2Notification), .ok (.found c2Settings), c2Send j, .ok ()⟩

/-- Claim C2 amended (proved): when no explicit `channel_type` is set, the
candidate list is the preferred channel first whenever it is set —
regardless of whether it is configured for the user (an unconfigured
preferred channel is attempted and its sends raise
`UserDoesntHaveTheChannel`) — followed by the remaining configured
channels with the preferred one never duplicated; and in the concrete case
{preferred=PUSH, channels={PUSH, EMAIL}} with PUSH always raising
CouldNotSend, the loop attempts PUSH exactly 3 times, then EMAIL, and ends
sent when EMAIL succeeds on any attempt below 3. -/
theorem C2_amended :
    (∀ s : UserNotificationsSettings, ∀ p : NotificationType,
      s.preferred_notification_channel = some p →
      candidateChannels s =
        p :: (channelKeys s.notification_channels).filter (fun t => !(t == p)) ∧
      p ∉ (channelKeys s.notification_channels).filter (fun t => !(t == p))) ∧
    (∀ j, j < 3 → send_notifications (c2Deps j) =
      .ok ⟨[(.push, 0), (.push, 1), (.push, 2)] ++
             (List.range (j + 1)).map (fun k => (.email, k)),
           some .sent⟩) := by
  constructor
  · intro s p hp
    constructor
    · unfold candidateChannels
      rw [hp]
      simp only
      congr 1
      apply List.filter_congr
      intro t _
      by_cases h : t = p <;> simp [h]
    · intro hmem
      have hb := (List.mem_filter.mp hmem).2
      simp at hb
  · intro j hj
    interval_cases j <;> rfl

/-- Witness for C2's amended theorem: both parts instantiated at the
concrete scenario (j = 0: email succeeds on its first attempt). -/
theorem C2_amended_witness :
    (candidateChannels c2Settings =
      .push :: (channelKeys c2Settings.notification_channels).filter
        (fun t => !(t == .push)) ∧
     .push ∉ (channelKeys c2Settings.notification_channels).filter
        (fun t => !(t == .push))) ∧
    send_notifications (c2Deps 0) =
      .ok ⟨[(.push, 0), (.push, 1), (.push, 2)] ++
             (List.range 1).map (fun k => (.email, k)),
           some .sent⟩ :=
  ⟨C2_amended.1 c2Settings .push rfl, C2_amended.2 0 (by decide)⟩

/-- C3 counterexample input: the user has zero configured channels and the
notification has no explicit type, but the preferred channel is set; sends
behave as the real channel code (no address, so every attempt raises
`UserDoesntHaveTheChannel`). -/
def c3Settings : UserNotificationsSettings := ⟨13, [], some .push⟩

def c3Notification : Notification := ⟨3, 13, "t", "b", none, .pending⟩

def c3Deps : DispatchDeps :=
  ⟨.ok (some c3Notification), .ok (.found c3Settings),
   fun ct _ => channelSend c3Settings true .delivered ct, .ok ()⟩

/-- Claim C3 counterexample: the claim says that with zero configured
channels and no explicit channel_type the candidate list is empty and the
notification is immediately failed with zero send attempts.  On the code
the preferred channel is inserted even though it is unconfigured, so this
user's candidate list is [push] and three send attempts are made before
the failure is recorded: the trace length is 3, not 0. -/
theorem C3_counterexample :
    c3Settings.notification_channels = [] ∧
    c3Notification.type = none ∧
    send_notifications c3Deps =
      .ok ⟨[(.push, 0), (.push, 1), (.push, 2)], some .failed⟩ ∧
    ¬ (dispatchTrace c3Deps).length = 0 :=
  ⟨rfl, rfl, rfl, by decide⟩

/-- Claim C3 amended (proved): if every candidate channel's send raises
CouldNotSend on every attempt, the loop makes exactly 3 attempts per
candidate (total = 3 × number of candidates) and records failed; the
immediately-failed-with-zero-attempts case requires the candidate list to
be empty, which on the code means zero configured channels AND no
preferred channel set (not merely zero configured channels). -/
theorem C3_amended (d : DispatchDeps) (n : Notification)
    (s : UserNotificationsSettings)
    (h1 : d.claimed = .ok (some n)) (h2 : d.settings = .ok (.found s))
    (h3 : n.type = none) (h4 : d.updateResult = .ok ())
    (h5 : ∀ ct ∈ candidateChannels s, ∀ k, k < 3 →
      d.send ct k = .couldntSendNotification) :
    send_notifications d =
      .ok ⟨exhaustTrace (candidateChannels s), some .failed⟩ ∧
    (exhaustTrace (candidateChannels s)).length =
      3 * (candidateChannels s).length ∧
    (s.notification_channels = [] →
      s.preferred_notification_channel = none →
      exhaustTrace (candidateChannels s) = []) := by
  refine ⟨?_, exhaustTrace_length _, ?_⟩
  · unfold send_notifications
    simp only [h1, h2, h3]
    unfold runCandidates
    rw [channelLoop_all_fail d.send (candidateChannels s)
      (fun ct hct k hk => by rw [h5 ct hct k hk]; simp)]
    simp [finishWith, h4]
  · intro hch hpref
    unfold candidateChannels
    rw [hch, hpref]
    rfl

/-- C3 witness input: two configured channels, every send failing with
CouldNotSend. -/
def c3ExhaustSettings : UserNotificationsSettings :=
  ⟨14, [(.email, "a@b"), (.sms, "+1")], none⟩

def c3ExhaustDeps : DispatchDeps :=
  ⟨.ok (some ⟨4, 14, "t", "b", none, .pending⟩),
   .ok (.found c3ExhaustSettings),
   fun _ _ => .couldntSendNotification, .ok ()⟩

/-- Witness for C3's amended theorem at `c3ExhaustDeps`. -/
theorem C3_amended_witness :
    send_notifications c3ExhaustDeps =
      .ok ⟨exhaustTrace (candidateChannels c3ExhaustSettings), some .failed⟩ ∧
    (exhaustTrace (candidateChannels c3ExhaustSettings)).length =
      3 * (candidateChannels c3ExhaustSettings).length ∧
    (c3ExhaustSettings.notification_channels = [] →
      c3ExhaustSettings.preferred_notification_channel = none →
      exhaustTrace (candidateChannels c3ExhaustSettings) = []) :=
  C3_amended c3ExhaustDeps ⟨4, 14, "t", "b", none, .pending⟩
    c3ExhaustSettings rfl rfl rfl rfl (fun _ _ _ _ => rfl)

/-- C7 concrete input: a store already holding a row with uuid 1, and a
second notification submitted with the same uuid 1. -/
def c7Row : NotificationRow := ⟨1, 20, "t", "b", none, .pending, 0⟩

def c7Dup : Notification := ⟨1, 21, "x", "y", none, .pending⟩

/-- Claim C7 counterexample: the claim says `create` fails whenever a
notification with the same id is already present, backed by a uniqueness
constraint.  On the code, `NotificationModel.uuid` carries no uniqueness
constraint and `create` performs an unconditional insert: creating a
duplicate returns normally (yielding the created entity) and the store
ends up with two rows bearing the same uuid. -/
theorem C7_counterexample :
    (create [c7Row] c7Dup 5).1 =
      model_to_entity ⟨1, 21, "x", "y", none, .pending, 5⟩ ∧
    ((create [c7Row] c7Dup 5).2.countP (uuidMatch 1)) = 2 :=
  ⟨rfl, by decide⟩

/-- Claim C7 amended (proved): `create` never fails on a duplicate id:
for every store state it unconditionally appends a fresh row (status
pending), so a create whose id is already present silently yields a second
row with that id (the row count for the id strictly increases);
deduplication rests solely on the use case's racy `exists` pre-check, not
on any store constraint. -/
theorem C7_amended (rows : List NotificationRow) (n : Notification)
    (now : Nat) :
    (create rows n now).2 =
      rows ++ [⟨n.uuid, n.user_uuid, n.title, n.text, n.type, .pending, now⟩] ∧
    ((create rows n now).2.countP (uuidMatch n.uuid)) =
      rows.countP (uuidMatch n.uuid) + 1 := by
  constructor
  · rfl
  · simp [create, createdRow, List.countP_append, uuidMatch, List.countP_cons]

/-- Witness for C7's amended theorem at the duplicate-create input. -/
theorem C7_amended_witness :
    (create [c7Row] c7Dup 5).2 = [c7Row] ++ [createdRow c7Dup 5] ∧
    ((create [c7Row] c7Dup 5).2.countP (uuidMatch c7Dup.uuid)) =
      ([c7Row] : List NotificationRow).countP (uuidMatch c7Dup.uuid) + 1 :=
  C7_amended [c7Row] c7Dup 5

/-- C8 concrete input: a user with a non-empty Telegram chat id, the
Telegram channel administratively disabled
(`TELEGRAM_NOTIFICATIONS_ENABLED` false), notification pinned to
Telegram. -/
def c8Settings : UserNotificationsSettings :=
  ⟨15, [(.telegram, "chat1")], none⟩

def c8Transport : NotificationType → Nat → TransportResult :=
  fun _ _ => .delivered

def c8Deps : DispatchDeps :=
  ⟨.ok (some ⟨5, 15, "t", "b", some .telegram, .pending⟩),
   .ok (.found c8Settings),
   fun c k => channelSend c8Settings false (c8Transport c k) c, .ok ()⟩

/-- Claim C8 (confirmed): for every channel variant, when the user's
address for the channel is configured (present and non-empty) but the
channel is administratively disabled, `send` returns success without the
transport being called, and the dispatch loop consequently records the
notification as sent on the first attempt although nothing was
delivered. -/
theorem C8_disabled_noop (d : DispatchDeps) (n : Notification)
    (s : UserNotificationsSettings) (t : NotificationType) (addr : String)
    (tr : NotificationType → Nat → TransportResult)
    (h1 : lookupChannel s.notification_channels t = some addr)
    (h2 : addr ≠ "")
    (h3 : d.claimed = .ok (some n)) (h4 : d.settings = .ok (.found s))
    (h5 : n.type = some t)
    (h6 : d.send = fun c k => channelSend s false (tr c k) c)
    (h7 : d.updateResult = .ok ()) :
    channelSend s false (tr t 0) t = .success ∧
    channelTransportCalled s false t = false ∧
    send_notifications d = .ok ⟨[(t, 0)], some .sent⟩ := by
  have hsend : ∀ trr, channelSend s false trr t = .success := by
    intro trr
    unfold channelSend
    rw [h1]
    simp [h2]
  refine ⟨hsend _, ?_, ?_⟩
  · unfold channelTransportCalled
    rw [h1]
    simp [h2]
  · unfold send_notifications
    simp only [h3, h4, h5, hasChannel_of_lookupChannel h1, if_true]
    unfold runCandidates channelLoop range3 attemptLoop
    rw [h6]
    simp only [hsend]
    simp [finishWith, h7]

/-- Witness for C8 at `c8Deps`. -/
theorem C8_disabled_noop_witness :
    channelSend c8Settings false (c8Transport .telegram 0) .telegram =
      .success ∧
    channelTransportCalled c8Settings false .telegram = false ∧
    send_notifications c8Deps = .ok ⟨[(.telegram, 0)], some .sent⟩ :=
  C8_disabled_noop c8Deps ⟨5, 15, "t", "b", some .telegram, .pending⟩
    c8Settings .telegram "chat1" c8Transport rfl (by decide) rfl rfl rfl
    rfl rfl

/-- A uuid that `existsByUuid` rejects has no matching row. -/
theorem find?_eq_none_of_not_existsByUuid {rows : List NotificationRow}
    {u : Nat} (h : existsByUuid rows u = false) :
    rows.find? (uuidMatch u) = none := by
  unfold existsByUuid at h
  exact List.find?_eq_none.mpr (List.any_eq_false.mp h)

/-- Claim C4 (confirmed): submission is idempotent on the notification id.
A first submit of a fresh id creates the row (status pending) and returns
`was_created = true`; a second submit with the same id — whatever payload
it carries — returns `was_created = false` with the stored record's
status, and leaves the store exactly unchanged (the resubmitted payload is
discarded). -/
theorem C4_idempotent_submission (rows : List NotificationRow)
    (n1 n2 : Notification) (t1 t2 : Nat)
    (hfresh : existsByUuid rows n1.uuid = false)
    (hid : n2.uuid = n1.uuid) :
    execute rows n1 t1 =
      .ok (⟨n1.uuid, .pending, true⟩, rows ++ [createdRow n1 t1]) ∧
    execute (rows ++ [createdRow n1 t1]) n2 t2 =
      .ok (⟨n1.uuid, .pending, false⟩, rows ++ [createdRow n1 t1]) := by
  have hnone := find?_eq_none_of_not_existsByUuid hfresh
  constructor
  · unfold execute
    rw [hfresh]
    simp [create, createdRow, model_to_entity]
  · have hex : existsByUuid (rows ++ [createdRow n1 t1]) n2.uuid = true := by
      unfold existsByUuid
      rw [List.any_append]
      simp [uuidMatch, hid, createdRow]
    have hfind : (rows ++ [createdRow n1 t1]).find? (uuidMatch n2.uuid) =
        some (createdRow n1 t1) := by
      rw [List.find?_append, hid, hnone]
      simp [uuidMatch, createdRow]
    unfold execute
    rw [hex]
    simp only [if_true]
    unfold get_by_uuid
    rw [hfind]
    simp [model_to_entity, hid, createdRow]

/-- Witness for C4: submit uuid 7 twice, the second payload differing in
every other field. -/
theorem C4_idempotent_submission_witness :
    execute [] ⟨7, 70, "T", "B", none, .pending⟩ 4 =
      .ok (⟨7, .pending, true⟩, [⟨7, 70, "T", "B", none, .pending, 4⟩]) ∧
    execute [⟨7, 70, "T", "B", none, .pending, 4⟩]
      ⟨7, 99, "X", "Y", some .sms, .failed⟩ 9 =
      .ok (⟨7, .pending, false⟩, [⟨7, 70, "T", "B", none, .pending, 4⟩]) := by
  have h := C4_idempotent_submission [] ⟨7, 70, "T", "B", none, .pending⟩
    ⟨7, 99, "X", "Y", some .sms, .failed⟩ 4 9 (by decide) rfl
  simpa using h

/-- Ascending `created_at` order (the `ORDER BY created_at` contract). -/
def SortedByCreated (l : List NotificationRow) : Prop :=
  l.Pairwise (fun x y => x.created_at ≤ y.created_at)

theorem mem_insertByCreated {a r : NotificationRow}
    {l : List NotificationRow} :
    a ∈ insertByCreated r l ↔ a = r ∨ a ∈ l := by
  induction l with
  | nil => simp [insertByCreated]
  | cons x xs ih =>
    unfold insertByCreated
    by_cases h : r.created_at ≤ x.created_at
    · simp [h, List.mem_cons]
    · simp [h, List.mem_cons, ih]
      tauto

theorem sortedByCreated_insertByCreated (r : NotificationRow) :
    ∀ l : List NotificationRow, SortedByCreated l →
      SortedByCreated (insertByCreated r l) := by
  intro l
  induction l with
  | nil =>
    intro _
    simp [insertByCreated, SortedByCreated]
  | cons x xs ih =>
    intro h
    obtain ⟨hx, hxs⟩ := List.pairwise_cons.mp h
    unfold insertByCreated
    by_cases hle : r.created_at ≤ x.created_at
    · simp only [if_pos hle]
      refine List.pairwise_cons.mpr ⟨?_, List.pairwise_cons.mpr ⟨hx, hxs⟩⟩
      intro b hb
      rcases List.mem_cons.mp hb with rfl | hb'
      · exact hle
      · exact le_trans hle (hx b hb')
    · simp only [if_neg hle]
      refine List.pairwise_cons.mpr ⟨?_, ih hxs⟩
      intro b hb
      rcases mem_insertByCreated.mp hb with rfl | hb'
      · exact Nat.le_of_not_le hle
      · exact hx b hb'

theorem sortedByCreated_sortByCreated (l : List NotificationRow) :
    SortedByCreated (sortByCreated l) := by
  induction l with
  | nil => simp [sortByCreated, SortedByCreated]
  | cons x xs ih => exact sortedByCreated_insertByCreated x _ ih

theorem mem_sortByCreated {a : NotificationRow} {l : List NotificationRow} :
    a ∈ sortByCreated l ↔ a ∈ l := by
  induction l with
  | nil => simp [sortByCreated]
  | cons x xs ih =>
    unfold sortByCreated
    rw [mem_insertByCreated, ih, List.mem_cons]

/-- In a list sorted by ascending `created_at`, the first element
satisfying a predicate has minimal `created_at` among all elements
satisfying it. -/
theorem find?_min_of_sortedByCreated {p : NotificationRow → Bool} :
    ∀ {l : List NotificationRow} {r : NotificationRow},
      SortedByCreated l → l.find? p = some r →
      ∀ b ∈ l, p b = true → r.created_at ≤ b.created_at := by
  intro l
  induction l with
  | nil =>
    intro r _ hf
    simp at hf
  | cons x xs ih =>
    intro r hs hf b hb hpb
    obtain ⟨hx, hxs⟩ := List.pairwise_cons.mp hs
    by_cases hpx : p x = true
    · rw [List.find?_cons_of_pos _ hpx] at hf
      injection hf with hf
      subst hf
      rcases List.mem_cons.mp hb with rfl | hb'
      · exact le_refl _
      · exact hx b hb'
    · rw [List.find?_cons_of_neg _ hpx] at hf
      rcases List.mem_cons.mp hb with rfl | hb'
      · exact absurd hpb hpx
      · exact ih hxs hf b hb' hpb

/-- Claim C5 (confirmed): `get_pending_for_update` selects only among rows
with status pending, in ascending `created_at` order: any returned row is
a stored pending row not currently locked (in particular never a terminal
sent or failed row), with minimal `created_at` among the unlocked pending
rows; and it returns none exactly when every stored pending row is
locked (so when no unlocked pending row exists). -/
theorem C5_claim_pending (rows : List NotificationRow) (locked : List Nat) :
    (∀ r, get_pending_for_update rows locked = some r →
      r ∈ rows ∧ r.status = .pending ∧
      r.status ≠ .sent ∧ r.status ≠ .failed ∧
      r.uuid ∉ locked ∧
      ∀ b ∈ rows, b.status = .pending → b.uuid ∉ locked →
        r.created_at ≤ b.created_at) ∧
    (get_pending_for_update rows locked = none ↔
      ∀ b ∈ rows, b.status = .pending → b.uuid ∈ locked) := by
  constructor
  · intro r hr
    unfold get_pending_for_update at hr
    have hmemS := List.mem_of_find?_eq_some hr
    have hpred := List.find?_some hr
    have hmemF := mem_sortByCreated.mp hmemS
    obtain ⟨hmem, hpb⟩ := List.mem_filter.mp hmemF
    have hpend : r.status = .pending := by simpa using hpb
    have hunlocked : r.uuid ∉ locked := by simpa using hpred
    refine ⟨hmem, hpend, by simp [hpend], by simp [hpend], hunlocked, ?_⟩
    intro b hb hbpend hbunlocked
    have hbF : b ∈ rows.filter (fun x => decide (x.status = .pending)) :=
      List.mem_filter.mpr ⟨hb, by simpa using hbpend⟩
    have hbS := mem_sortByCreated.mpr hbF
    exact find?_min_of_sortedByCreated
      (sortedByCreated_sortByCreated _) hr b hbS (by simpa using hbunlocked)
  · unfold get_pending_for_update
    rw [List.find?_eq_none]
    constructor
    · intro h b hb hbpend
      by_contra hlocked
      have hbF : b ∈ rows.filter (fun x => decide (x.status = .pending)) :=
        List.mem_filter.mpr ⟨hb, by simpa using hbpend⟩
      have hbS := mem_sortByCreated.mpr hbF
      have := h b hbS
      simp [hlocked] at this
    · intro h b hbS
      have hbF := mem_sortByCreated.mp hbS
      obtain ⟨hb, hbp⟩ := List.mem_filter.mp hbF
      have hbpend : b.status = .pending := by simpa using hbp
      have := h b hb hbpend
      simp [this]

/-- C5 witness store: one sent row, and two pending rows of which the
younger-id one is older by `created_at`. -/
def c5Rows : List NotificationRow :=
  [⟨1, 1, "", "", none, .sent, 0⟩,
   ⟨2, 1, "", "", none, .pending, 5⟩,
   ⟨3, 1, "", "", none, .pending, 3⟩]

/-- Witness for C5: with no lock held, the claim returns the oldest
pending row (uuid 3, created_at 3). -/
theorem C5_claim_pending_witness :
    (⟨3, 1, "", "", none, .pending, 3⟩ : NotificationRow) ∈ c5Rows ∧
    (⟨3, 1, "", "", none, .pending, 3⟩ : NotificationRow).status = .pending ∧
    (⟨3, 1, "", "", none, .pending, 3⟩ : NotificationRow).status ≠ .sent ∧
    (⟨3, 1, "", "", none, .pending, 3⟩ : NotificationRow).status ≠ .failed ∧
    (⟨3, 1, "", "", none, .pending, 3⟩ : NotificationRow).uuid ∉ ([] : List Nat) ∧
    ∀ b ∈ c5Rows, b.status = .pending → b.uuid ∉ ([] : List Nat) →
      (⟨3, 1, "", "", none, .pending, 3⟩ : NotificationRow).created_at ≤
        b.created_at :=
  (C5_claim_pending c5Rows []).1 ⟨3, 1, "", "", none, .pending, 3⟩ rfl

end NotificationService
